import Mathlib

/-!
Verification of the loan-eligibility pre-screening application (`src/app.py`)
against its natural-language specification.

The application is a single Streamlit script.  We embed it shallowly:
numeric form inputs become rationals (the script manipulates them only with
`+`, `/`, `max` and order comparisons at exactly representable thresholds),
the categorical selectboxes become finite enumerations, the single-row
pandas dataframe becomes an association list of column name / cell value,
the trained pipeline becomes an abstract function from feature rows to a
probability, and the `@st.cache_resource` memoisation of `load_model`
becomes explicit session state threading a cache and a disk-read counter.
-/

namespace LoanApp

/-- The two-valued "No"/"Yes" selectboxes of the sidebar. -/
inductive YesNo
  | no
  | yes
deriving DecidableEq, Repr

/-- The "Highest Education Level" selectbox options. -/
inductive Education
  | associate
  | bachelor
  | master
deriving DecidableEq, Repr

/-- The "Home Ownership Status" selectbox options. -/
inductive HomeOwnership
  | rent
  | own
  | mortgage
deriving DecidableEq, Repr

/-- String rendering of a `YesNo` value, as the selectbox returns it. -/
def YesNo.toStr : YesNo → String
  | .no => "No"
  | .yes => "Yes"

/-- String rendering of an `Education` value, as the selectbox returns it. -/
def Education.toStr : Education → String
  | .associate => "Associate"
  | .bachelor => "Bachelor"
  | .master => "Master"

/-- String rendering of a `HomeOwnership` value, as the selectbox returns it. -/
def HomeOwnership.toStr : HomeOwnership → String
  | .rent => "Rent"
  | .own => "Own"
  | .mortgage => "Mortgage"

/-- The applicant profile collected by the sidebar form (`src/app.py`
lines 44-88): age slider, three selectboxes, default selectbox, and the two
non-negative numeric inputs. -/
structure ApplicantProfile where
  age : Nat
  education : Education
  is_fresh_grad : YesNo
  home_ownership : HomeOwnership
  previous_default : YesNo
  income : ℚ
  loan_amount : ℚ
deriving DecidableEq, Repr

/-- Derived risk assumptions (`src/app.py` lines 119-126): the fresh-graduate
branch sets `emp_exp`, `cred_hist` and `credit_score`.  Returned as the triple
`(emp_exp, cred_hist, credit_score)`. -/
def derivedAssumptions (p : ApplicantProfile) : Nat × Nat × Nat :=
  if p.is_fresh_grad = YesNo.yes then (0, 0, 600) else (5, 5, 700)

/-- The derived financial insight shown in the application summary
(`src/app.py` line 104): `loan_amount / max(income, 1)`. -/
def loan_to_income (p : ApplicantProfile) : ℚ :=
  p.loan_amount / max p.income 1

/-- A cell of the single-row feature dataframe: either a string column or a
numeric column. -/
inductive FeatureValue
  | str (s : String)
  | num (q : ℚ)
deriving DecidableEq, Repr

/-- The single-row input dataframe built for the pipeline (`src/app.py`
lines 131-149), as an ordered association list of column name and cell. -/
def input_df (p : ApplicantProfile) : List (String × FeatureValue) :=
  let a := derivedAssumptions p
  [ ("person_age", FeatureValue.num p.age),
    ("person_gender", FeatureValue.str "Male"),
    ("person_education", FeatureValue.str p.education.toStr),
    ("person_emp_exp", FeatureValue.num a.1),
    ("person_income", FeatureValue.num p.income),
    ("loan_amnt", FeatureValue.num p.loan_amount),
    ("loan_intent", FeatureValue.str "Personal"),
    ("loan_int_rate", FeatureValue.num 10),
    ("loan_percent_income", FeatureValue.num (p.loan_amount / max p.income 1)),
    ("cb_person_cred_hist_length", FeatureValue.num a.2.1),
    ("credit_score", FeatureValue.num a.2.2),
    ("person_home_ownership", FeatureValue.str p.home_ownership.toStr),
    ("previous_loan_defaults_on_file", FeatureValue.str p.previous_default.toStr) ]

/-- The status messages the risk-aware decision logic can render
(`src/app.py` lines 171-189). -/
inductive Message
  | warningFreshGrad
  | recConditionalApproval
  | recFurtherAssessment
  | likelyEligible
  | borderline
  | lowLikelihood
deriving DecidableEq, Repr

/-- The risk-aware decision logic (`src/app.py` lines 171-189): the ordered
list of status messages rendered for a fresh-grad flag and a predicted
probability. -/
def decisionMessages (is_fresh_grad : YesNo) (prob : ℚ) : List Message :=
  if is_fresh_grad = YesNo.yes then
    Message.warningFreshGrad ::
      (if (0.8 : ℚ) ≤ prob then [Message.recConditionalApproval]
       else [Message.recFurtherAssessment])
  else
    if (0.75 : ℚ) ≤ prob then [Message.likelyEligible]
    else if (0.5 : ℚ) ≤ prob then [Message.borderline]
    else [Message.lowLikelihood]

/-- The trained pipeline artifact, abstractly: `predict_proba` restricted to
the positive-class entry, i.e. a deterministic function from the single-row
feature table to the approval probability (`src/app.py` line 154 takes
`predict_proba(input_df)[0][1]`). -/
def Model : Type := List (String × FeatureValue) → ℚ

/-- Process state for the `@st.cache_resource` memoisation of `load_model`
(`src/app.py` lines 17-21): the cached artifact, if already loaded, and a
counter of how many times the artifact file was read from disk. -/
structure Session where
  cache : Option Model
  diskReads : Nat

/-- The failure raised when `joblib.load` cannot read or reconstruct the
artifact: the script does not catch it, so it surfaces as the raw load
exception, with no separately rendered message. -/
inductive LoadError
  | modelUnavailable
deriving DecidableEq, Repr

/-- `load_model` (`src/app.py` lines 17-21): under `@st.cache_resource`, the
first call in a process reads `best_risk_model_pipeline.joblib` from disk and
caches the result; later calls return the cache without touching the disk.
`disk` is the artifact file's contents (`none` when the file is absent or
cannot be deserialised). -/
def load_model (disk : Option Model) (s : Session) : Except LoadError (Model × Session) :=
  match s.cache with
  | some m => Except.ok (m, s)
  | none =>
    match disk with
    | some m => Except.ok (m, { cache := some m, diskReads := s.diskReads + 1 })
    | none => Except.error LoadError.modelUnavailable

/-- The check-eligibility handler (`src/app.py` lines 114-189): obtain the
model, build `input_df`, take the positive-class probability, and render the
probability metric followed by the decision messages. -/
def checkEligibility (disk : Option Model) (p : ApplicantProfile) (s : Session) :
    Except LoadError ((ℚ × List Message) × Session) :=
  match load_model disk s with
  | Except.error e => Except.error e
  | Except.ok (m, s1) =>
    let prob := m (input_df p)
    Except.ok ((prob, decisionMessages p.is_fresh_grad prob), s1)

/-- The top-level script events, in source order: `model = load_model()` at
line 21 runs before the sidebar form (lines 44-88), the application summary
(lines 93-105) and the button-gated eligibility check (line 114). -/
inductive ScriptEvent
  | loadModelEvent
  | renderForm
  | renderSummary
  | checkTriggered
deriving DecidableEq, Repr

/-- The sequence of top-level script events for one page run, in the order
they appear in `src/app.py`. -/
def scriptEvents (pressed : Bool) : List ScriptEvent :=
  [ScriptEvent.loadModelEvent, ScriptEvent.renderForm, ScriptEvent.renderSummary]
    ++ (if pressed then [ScriptEvent.checkTriggered] else [])

/-- One full run of the script (`src/app.py`): the model is loaded at line 21
before anything else is processed; if the load fails the run aborts with the
raw exception and nothing further is rendered.  On success, the result is the
rendered probability and decision messages when the button was pressed, and
`none` otherwise. -/
def runApp (disk : Option Model) (p : ApplicantProfile) (pressed : Bool) (s : Session) :
    Except LoadError (Option (ℚ × List Message) × Session) :=
  match load_model disk s with
  | Except.error e => Except.error e
  | Except.ok (m, s1) =>
    if pressed then
      let prob := m (input_df p)
      Except.ok (some (prob, decisionMessages p.is_fresh_grad prob), s1)
    else
      Except.ok (none, s1)

/-- Modelled from the spec: the heuristic approval estimator (component C2,
spec section 4.2) is a separate application variant of this repository whose
source file is not under `src/`; only `src/app.py` (the model-backed variant)
is.  This definition transcribes the exact algorithm the spec gives in
section 4.2: an additive point score capped at 0.95. -/
def heuristicApproval (income loan_amount : ℚ) (credit_score emp_exp : Nat)
    (previous_default : YesNo) : ℚ :=
  let s0 : ℚ := 0
  let s1 := if (4000 : ℚ) ≤ income then s0 + 0.25 else s0
  let s2 := if loan_amount / max income 1 ≤ (0.3 : ℚ) then s1 + 0.25 else s1
  let s3 := if 650 ≤ credit_score then s2 + 0.2 else s2
  let s4 := if 2 ≤ emp_exp then s3 + 0.2 else s3
  let s5 := if previous_default = YesNo.no then s4 + 0.1 else s4
  min s5 0.95

/-- Claim C1: the decision-label thresholds are closed on the lower bound:
with `freshGradFlag = No`, probability exactly 0.75 yields the likely-eligible
label and exactly 0.50 yields the borderline label; with `freshGradFlag = Yes`,
probability exactly 0.80 yields the conditional-approval recommendation. -/
theorem decision_thresholds_closed :
    decisionMessages YesNo.no (0.75 : ℚ) = [Message.likelyEligible] ∧
    decisionMessages YesNo.no (0.5 : ℚ) = [Message.borderline] ∧
    decisionMessages YesNo.yes (0.8 : ℚ) =
      [Message.warningFreshGrad, Message.recConditionalApproval] := by
  refine ⟨?_, ?_, ?_⟩ <;> norm_num [decisionMessages] <;> decide

/-- Claim C2: the derived risk assumptions are a function of the fresh-grad
flag alone: `Yes` always gives `(0, 0, 600)` and `No` always gives
`(5, 5, 700)`, for every applicant profile. -/
theorem derived_assumptions_flag_only (p : ApplicantProfile) :
    (p.is_fresh_grad = YesNo.yes → derivedAssumptions p = (0, 0, 600)) ∧
    (p.is_fresh_grad = YesNo.no → derivedAssumptions p = (5, 5, 700)) := by
  constructor <;> intro h <;> simp [derivedAssumptions, h]

/-- Witness for C2 at two concrete profiles, one per flag value. -/
theorem derived_assumptions_flag_only_witness :
    derivedAssumptions
        ⟨25, Education.bachelor, YesNo.yes, HomeOwnership.rent, YesNo.no, 3000, 10000⟩
      = (0, 0, 600) ∧
    derivedAssumptions
        ⟨40, Education.master, YesNo.no, HomeOwnership.own, YesNo.yes, 8000, 20000⟩
      = (5, 5, 700) :=
  ⟨(derived_assumptions_flag_only _).1 rfl, (derived_assumptions_flag_only _).2 rfl⟩

/-- Claim C3: for every profile, the single-row feature table has exactly the
13 named columns of spec section 4.3, in order, and the `person_gender`,
`loan_intent` and `loan_int_rate` cells hold the constants "Male", "Personal"
and 10.0 regardless of user input. -/
theorem input_df_schema (p : ApplicantProfile) :
    (input_df p).map Prod.fst =
      ["person_age", "person_gender", "person_education", "person_emp_exp",
       "person_income", "loan_amnt", "loan_intent", "loan_int_rate",
       "loan_percent_income", "cb_person_cred_hist_length", "credit_score",
       "person_home_ownership", "previous_loan_defaults_on_file"] ∧
    (input_df p).length = 13 ∧
    (input_df p)[1]? = some ("person_gender", FeatureValue.str "Male") ∧
    (input_df p)[6]? = some ("loan_intent", FeatureValue.str "Personal") ∧
    (input_df p)[7]? = some ("loan_int_rate", FeatureValue.num 10) :=
  ⟨rfl, rfl, rfl, rfl, rfl⟩

/-- Claim C4: with `monthlyIncome = 0` the loan-to-income ratio computation
does not divide by zero and returns exactly the requested loan amount, for
every non-negative loan amount. -/
theorem loan_to_income_zero_income (p : ApplicantProfile)
    (h0 : p.income = 0) (hL : 0 ≤ p.loan_amount) :
    loan_to_income p = p.loan_amount := by
  norm_num [loan_to_income, h0]

/-- Witness for C4: income 0, requested amount 1000. -/
theorem loan_to_income_zero_income_witness :
    loan_to_income
        ⟨25, Education.bachelor, YesNo.no, HomeOwnership.rent, YesNo.no, 0, 1000⟩
      = 1000 :=
  loan_to_income_zero_income _ rfl (by norm_num)

/-- Claim C5: the two decision states are mutually exclusive and exhaustive
over the fresh-grad flag, and in the fresh-grad state the manual-review
warning is always rendered first, followed by exactly one recommendation, for
every probability. -/
theorem decision_states_exclusive_and_warned (f : YesNo) (prob : ℚ) :
    ((f = YesNo.yes ∧ ¬ f = YesNo.no) ∨ (f = YesNo.no ∧ ¬ f = YesNo.yes)) ∧
    (f = YesNo.yes →
      ∃ rec, decisionMessages f prob = [Message.warningFreshGrad, rec] ∧
        (rec = Message.recConditionalApproval ∨ rec = Message.recFurtherAssessment)) := by
  constructor
  · cases f
    · exact Or.inr ⟨rfl, by simp⟩
    · exact Or.inl ⟨rfl, by simp⟩
  · intro h
    subst h
    by_cases hp : (0.8 : ℚ) ≤ prob
    · exact ⟨Message.recConditionalApproval, by simp [decisionMessages, hp], Or.inl rfl⟩
    · exact ⟨Message.recFurtherAssessment, by simp [decisionMessages, hp], Or.inr rfl⟩

/-- Witness for C5: the fresh-grad state at probability 0.5 renders the
warning first, then a recommendation. -/
theorem decision_states_exclusive_and_warned_witness :
    ∃ rec, decisionMessages YesNo.yes (0.5 : ℚ) = [Message.warningFreshGrad, rec] ∧
      (rec = Message.recConditionalApproval ∨ rec = Message.recFurtherAssessment) :=
  (decision_states_exclusive_and_warned YesNo.yes 0.5).2 rfl

/-- Claim C6: with the artifact present, running the eligibility check twice
with identical inputs in one session gives identical probability and messages,
and the artifact is read from disk exactly once (the cache is hit on the
second run). -/
theorem check_eligibility_deterministic (m : Model) (p : ApplicantProfile) :
    ∃ r s1, checkEligibility (some m) p ⟨none, 0⟩ = Except.ok (r, s1) ∧
      checkEligibility (some m) p s1 = Except.ok (r, s1) ∧
      s1.diskReads = 1 :=
  ⟨(m (input_df p), decisionMessages p.is_fresh_grad (m (input_df p))),
    ⟨some m, 1⟩, rfl, rfl, rfl⟩

/-- Claim C7: with the artifact absent, a model-backed eligibility run fails
with the model-unavailable condition, and no successful result (hence no
probability and no heuristic fallback) is ever produced. -/
theorem model_absent_fatal (p : ApplicantProfile) (pressed : Bool) :
    runApp none p pressed ⟨none, 0⟩ = Except.error LoadError.modelUnavailable ∧
    ∀ out s1, runApp none p pressed ⟨none, 0⟩ ≠ Except.ok (out, s1) :=
  ⟨rfl, fun _ _ h => Except.noConfusion h⟩

/-- Claim C8: the heuristic estimator (spec section 4.2; this application
variant is not under `src/`, so it is modelled from the spec) always returns
a probability between 0 and 0.95 inclusive, for every input combination. -/
theorem heuristic_approval_bounded (income loan_amount : ℚ)
    (credit_score emp_exp : Nat) (previous_default : YesNo) :
    0 ≤ heuristicApproval income loan_amount credit_score emp_exp previous_default ∧
    heuristicApproval income loan_amount credit_score emp_exp previous_default ≤ 0.95 := by
  simp only [heuristicApproval]
  constructor
  · split_ifs <;> exact le_min (by norm_num) (by norm_num)
  · split_ifs <;> exact min_le_right _ _

/-- Claim C9: the model artifact is loaded eagerly, as the first top-level
script step, before the form and before any check is triggered; with the
artifact absent the run fails with the raw load exception on every page load,
even when the check button was never pressed. -/
theorem eager_load_fatal_on_page_load (p : ApplicantProfile) (pressed : Bool) :
    (scriptEvents pressed).head? = some ScriptEvent.loadModelEvent ∧
    runApp none p pressed ⟨none, 0⟩ = Except.error LoadError.modelUnavailable :=
  ⟨rfl, rfl⟩

/-- Claim C10: the loan-to-income ratio shown in the application summary and
the `loan_percent_income` cell of the model feature row are equal for every
profile, both being `loan_amount / max income 1`. -/
theorem summary_ratio_matches_feature_row (p : ApplicantProfile) :
    (input_df p)[8]? = some ("loan_percent_income", FeatureValue.num (loan_to_income p)) :=
  rfl

end LoanApp
